import Mathlib

/-!
Shallow embedding of the NFL defensive-statistics pipeline
(Next.js API route: `GET`, `extractTeamsFromStandings`,
`fetchTeamDetailedStats`, `computeEfficiencyRating`).

JavaScript numbers are modelled as rationals (`ℚ`); `Math.round(x*10)/10`
becomes `round1`; JS falsy coercion (`x || y`) on numbers becomes a
zero test; optional fields become `Option`; the network is made explicit:
the standings fetch outcome and the per-team fetch outcomes are inputs of
the pipeline function, and the wall-clock timestamp is a parameter.
-/

namespace NFL

/-- The canonical output record (`TeamDefenseStats` in the source). -/
structure TeamDefenseStats where
  team : String
  fullName : String
  logo : String
  pointsAllowed : ℚ
  yardsAllowed : ℚ
  passYardsAllowed : ℚ
  rushYardsAllowed : ℚ
  sacks : ℚ
  interceptions : ℚ
  fumbles : ℚ
  dvoa : ℚ
deriving Repr, DecidableEq

/-- `Math.min(...arr)` over a nonempty array; the source never applies it
to an empty array (`computeEfficiencyRating` returns early). -/
def listMin : List ℚ → ℚ
  | [] => 0
  | x :: xs => xs.foldl min x

/-- `Math.max(...arr)` over a nonempty array. -/
def listMax : List ℚ → ℚ
  | [] => 0
  | x :: xs => xs.foldl max x

/-- Result of the `minMax` helper in `computeEfficiencyRating`. -/
structure MinMax where
  min : ℚ
  max : ℚ
deriving Repr, DecidableEq

/-- `minMax(arr)` from `computeEfficiencyRating`. -/
def minMax (arr : List ℚ) : MinMax := ⟨listMin arr, listMax arr⟩

/-- `norm(value, mm)` from `computeEfficiencyRating`:
`mm.max === mm.min ? 0.5 : (value - mm.min) / (mm.max - mm.min)`. -/
def norm (value : ℚ) (mm : MinMax) : ℚ :=
  if mm.max = mm.min then 1/2 else (value - mm.min) / (mm.max - mm.min)

/-- `Math.round(x * 10) / 10` (JS `Math.round` is `⌊x + 1/2⌋`). -/
def round1 (x : ℚ) : ℚ := (⌊x * 10 + 1/2⌋ : ℚ) / 10

/-- The weighted score expression inside the loop of
`computeEfficiencyRating`, before rounding. -/
def teamScore (t : TeamDefenseStats) (pts yds sck ints fum : MinMax) : ℚ :=
  (1 - norm t.pointsAllowed pts) * 30 +
  (1 - norm t.yardsAllowed yds) * 25 +
  norm t.sacks sck * 20 +
  norm t.interceptions ints * 15 +
  norm t.fumbles fum * 10

/-- `computeEfficiencyRating(teams)`. The source mutates each record's
`dvoa` in place; here the updated list is returned. -/
def computeEfficiencyRating (teams : List TeamDefenseStats) : List TeamDefenseStats :=
  if teams.length = 0 then teams else
    let pts := minMax (teams.map (·.pointsAllowed))
    let yds := minMax (teams.map (·.yardsAllowed))
    let sck := minMax (teams.map (·.sacks))
    let ints := minMax (teams.map (·.interceptions))
    let fum := minMax (teams.map (·.fumbles))
    teams.map (fun t => { t with dvoa := round1 (teamScore t pts yds sck ints fum) })

/-- One entry of the flat stat array of a standings row
(`ESPNStandingsEntry.stats[i]`). `displayValue` is kept as its
`parseFloat` result: `some q` when the string parses, `none` for `NaN`. -/
structure StatItem where
  name : String
  abbreviation : Option String
  type : Option String
  value : ℚ
  displayValue : Option ℚ
deriving Repr, DecidableEq

/-- The predicate of the `stats.find(...)` call inside `getStat`:
`s.name === name || s.abbreviation === name || s.type === name`. -/
def statMatches (n : String) (s : StatItem) : Bool :=
  s.name = n || s.abbreviation = some n || s.type = some n

/-- `stat.value || parseFloat(stat.displayValue) || 0`: JS falsy chaining,
where `0` and `NaN` are falsy. -/
def resolveStat (s : StatItem) : ℚ :=
  if s.value ≠ 0 then s.value else s.displayValue.getD 0

/-- `getStat(names)` from `extractTeamsFromStandings`: first candidate key
with a matching entry wins; otherwise 0. -/
def getStat (stats : List StatItem) : List String → ℚ
  | [] => 0
  | n :: ns =>
    match stats.find? (statMatches n) with
    | some s => resolveStat s
    | none => getStat stats ns

/-- Identity part of a standings row (`entry.team`); `logos` keeps the
`href` strings. -/
structure TeamInfo where
  id : String
  abbreviation : String
  displayName : String
  logos : List String
deriving Repr, DecidableEq

/-- One standings row (`ESPNStandingsEntry`); a missing `stats` array is
the empty list (the source defends with `entry.stats || []`). -/
structure StandingsEntry where
  team : TeamInfo
  stats : List StatItem
deriving Repr, DecidableEq

/-- One conference group; `entries` models `conference.standings?.entries`
(`none` when the chain is absent and the row is skipped). -/
structure StandingsConference where
  entries : Option (List StandingsEntry)
deriving Repr, DecidableEq

/-- The standings document (`data.children` may be absent). -/
structure StandingsDoc where
  children : Option (List StandingsConference)
deriving Repr, DecidableEq

/-- The intermediate per-team tuple built by `extractTeamsFromStandings`. -/
structure BasicTeam where
  id : String
  abbr : String
  fullName : String
  logo : String
  pointsAllowed : ℚ
  gamesPlayed : ℚ
deriving Repr, DecidableEq

/-- The body of the inner loop of `extractTeamsFromStandings`: one
standings row to one `BasicTeam` (`gamesPlayed = wins + losses || 17`). -/
def extractEntry (entry : StandingsEntry) : BasicTeam :=
  let wins := getStat entry.stats ["wins", "W"]
  let losses := getStat entry.stats ["losses", "L"]
  let gamesPlayed := if wins + losses = 0 then 17 else wins + losses
  let pointsAllowed := getStat entry.stats ["pointsAllowed", "pointsAgainst", "PA"]
  { id := entry.team.id
    abbr := entry.team.abbreviation
    fullName := entry.team.displayName
    logo := entry.team.logos.headD ""
    pointsAllowed := pointsAllowed
    gamesPlayed := gamesPlayed }

/-- `extractTeamsFromStandings(data)`. -/
def extractTeamsFromStandings (data : StandingsDoc) : List BasicTeam :=
  match data.children with
  | none => []
  | some confs => (confs.map (fun c => (c.entries.getD []).map extractEntry)).flatten

/-- One entry of a statistics category (`ESPNStatEntry`); only `name` and
`value` are consulted by the source. -/
structure StatEntry where
  name : String
  value : ℚ
deriving Repr, DecidableEq

/-- One statistics category (`ESPNStatCategory`); a missing `stats` array
is the empty list (the source uses `cat.stats?.find`). -/
structure StatCategory where
  name : String
  stats : List StatEntry
deriving Repr, DecidableEq

/-- `findStat(categories, catName, statName)` from
`fetchTeamDetailedStats`: case-insensitive category and stat lookup,
0 when absent. -/
def findStat (categories : List StatCategory) (catName statName : String) : ℚ :=
  match categories.find? (fun c => c.name.toLower = catName.toLower) with
  | none => 0
  | some cat =>
    match cat.stats.find? (fun s => s.name.toLower = statName.toLower) with
    | none => 0
    | some s => s.value

/-- The `results.stats` field of a per-team statistics document: an array
of categories, an object with a `categories` array, or anything else
(normalised to the empty category list by the source). -/
inductive StatsField where
  | arr (cats : List StatCategory)
  | obj (categories : Option (List StatCategory))
  | other
deriving Repr, DecidableEq

/-- A per-team statistics document after the `data.results || data`
unwrapping: `opponent` is `some cats` when `results.opponent` is an
array, `none` otherwise. -/
structure TeamStatsDoc where
  opponent : Option (List StatCategory)
  statsField : StatsField
deriving Repr, DecidableEq

/-- Outcome of one network fetch, made explicit: a parsed document,
a non-success HTTP status (`!res.ok`), or a thrown error. -/
inductive FetchOutcome (α : Type) where
  | ok (doc : α)
  | httpError
  | thrown
deriving Repr, DecidableEq

/-- The `base` record built at the top of `fetchTeamDetailedStats`:
identity from standings, points allowed converted to per game,
everything else zero. -/
def baseRecord (team : BasicTeam) : TeamDefenseStats :=
  { team := team.abbr
    fullName := team.fullName
    logo := team.logo
    pointsAllowed :=
      if team.gamesPlayed > 0 then round1 (team.pointsAllowed / team.gamesPlayed) else 0
    yardsAllowed := 0
    passYardsAllowed := 0
    rushYardsAllowed := 0
    sacks := 0
    interceptions := 0
    fumbles := 0
    dvoa := 0 }

/-- The team-category normalisation in `fetchTeamDetailedStats`:
`Array.isArray(statsObj) ? statsObj : statsObj?.categories ?? []`. -/
def teamCategoriesOf : StatsField → List StatCategory
  | .arr cats => cats
  | .obj (some cats) => cats
  | .obj none => []
  | .other => []

/-- The `if (opponentCategories.length > 0)` block of
`fetchTeamDetailedStats`: merge the per-game opponent yardage into the
record when the category list is non-empty. -/
def mergeOpp (team : BasicTeam) (oppCats : List StatCategory)
    (r : TeamDefenseStats) : TeamDefenseStats :=
  if oppCats.length = 0 then r else
    { r with
      yardsAllowed :=
        if team.gamesPlayed > 0 then
          round1 (findStat oppCats "rushing" "totalYards" / team.gamesPlayed)
        else 0
      passYardsAllowed :=
        if team.gamesPlayed > 0 then
          round1 (findStat oppCats "passing" "netPassingYards" / team.gamesPlayed)
        else 0
      rushYardsAllowed :=
        if team.gamesPlayed > 0 then
          round1 (findStat oppCats "rushing" "rushingYards" / team.gamesPlayed)
        else 0 }

/-- The `if (teamCategories.length > 0)` block of
`fetchTeamDetailedStats`: merge sacks, interceptions and forced fumbles
into the record when the category list is non-empty. -/
def mergeTeamCats (teamCats : List StatCategory)
    (r : TeamDefenseStats) : TeamDefenseStats :=
  if teamCats.length = 0 then r else
    { r with
      sacks := findStat teamCats "defensive" "sacks"
      interceptions := findStat teamCats "defensiveInterceptions" "interceptions"
      fumbles := findStat teamCats "general" "fumblesForced" }

/-- `fetchTeamDetailedStats(team)` with the fetch outcome explicit: any
failure (non-success status or thrown error) yields the `base` record;
on success the opponent yardage (per game) and the defensive counters
are merged in, in the order the source mutates `base`. -/
def fetchTeamDetailedStats (team : BasicTeam)
    (outcome : FetchOutcome TeamStatsDoc) : TeamDefenseStats :=
  match outcome with
  | .httpError => baseRecord team
  | .thrown => baseRecord team
  | .ok doc =>
    mergeTeamCats (teamCategoriesOf doc.statsField)
      (mergeOpp team (doc.opponent.getD []) (baseRecord team))

/-- Outcome of the primary standings fetch: parsed document, non-success
status, or a thrown error (caught by the route's outer `try`). -/
inductive StandingsOutcome where
  | ok (doc : StandingsDoc)
  | httpError
  | thrown
deriving Repr, DecidableEq

/-- The JSON envelope returned by the route, with its HTTP status.
`lastUpdated` is `some timestamp` on success only; `source` likewise. -/
structure Envelope where
  status : Nat
  error : Option String
  stats : List TeamDefenseStats
  lastUpdated : Option String
  source : Option String
deriving Repr, DecidableEq

/-- The route handler `GET`, with the network and the clock explicit:
`standings` is the primary fetch outcome, `detail` gives each per-team
fetch outcome, `now` is `new Date().toISOString()`. -/
def GET (standings : StandingsOutcome)
    (detail : BasicTeam → FetchOutcome TeamStatsDoc) (now : String) : Envelope :=
  match standings with
  | .httpError =>
    { status := 500, error := some "Failed to fetch standings"
      stats := [], lastUpdated := none, source := none }
  | .thrown =>
    { status := 500, error := some "Failed to fetch NFL statistics"
      stats := [], lastUpdated := none, source := none }
  | .ok doc =>
    let teams := extractTeamsFromStandings doc
    if teams.length = 0 then
      { status := 500, error := some "No teams found in standings"
        stats := [], lastUpdated := none, source := none }
    else
      let detailedStats := teams.map (fun t => fetchTeamDetailedStats t (detail t))
      { status := 200, error := none
        stats := computeEfficiencyRating detailedStats
        lastUpdated := some now, source := some "ESPN API - 2024 Season" }

/-- The ten fields of a record other than `dvoa`, bundled for frame
conditions. -/
def frameFields (r : TeamDefenseStats) :
    String × String × String × ℚ × ℚ × ℚ × ℚ × ℚ × ℚ × ℚ :=
  (r.team, r.fullName, r.logo, r.pointsAllowed, r.yardsAllowed,
   r.passYardsAllowed, r.rushYardsAllowed, r.sacks, r.interceptions, r.fumbles)

/-! Concrete example inputs used by witnesses and counterexamples. -/

/-- A single fully-populated record. -/
def T0 : TeamDefenseStats :=
  { team := "PHI", fullName := "Philadelphia Eagles", logo := ""
    pointsAllowed := 20, yardsAllowed := 300, passYardsAllowed := 200
    rushYardsAllowed := 100, sacks := 40, interceptions := 15, fumbles := 10, dvoa := 0 }

/-- A record strictly best on all five weighted metrics relative to `tB`. -/
def tA : TeamDefenseStats :=
  { team := "PHI", fullName := "Philadelphia Eagles", logo := ""
    pointsAllowed := 15, yardsAllowed := 280, passYardsAllowed := 180
    rushYardsAllowed := 100, sacks := 50, interceptions := 20, fumbles := 12, dvoa := 0 }

/-- A record strictly worst on all five weighted metrics relative to `tA`. -/
def tB : TeamDefenseStats :=
  { team := "DAL", fullName := "Dallas Cowboys", logo := ""
    pointsAllowed := 25, yardsAllowed := 350, passYardsAllowed := 220
    rushYardsAllowed := 130, sacks := 30, interceptions := 10, fumbles := 5, dvoa := 0 }

/-- A flat stat entry named `pointsAgainst` with value 310. -/
def statPA : StatItem :=
  { name := "pointsAgainst", abbreviation := none, type := none
    value := 310, displayValue := some 310 }

/-- A standings row for PHI: 10 wins, 7 losses, 340 points against. -/
def entryPHI : StandingsEntry :=
  { team := { id := "21", abbreviation := "PHI"
              displayName := "Philadelphia Eagles", logos := ["phi.png"] }
    stats := [ { name := "wins", abbreviation := none, type := none
                 value := 10, displayValue := some 10 }
             , { name := "losses", abbreviation := none, type := none
                 value := 7, displayValue := some 7 }
             , { name := "pointsAgainst", abbreviation := none, type := none
                 value := 340, displayValue := some 340 } ] }

/-- A standings row for DAL: 7 wins, 10 losses, 425 points against. -/
def entryDAL : StandingsEntry :=
  { team := { id := "6", abbreviation := "DAL"
              displayName := "Dallas Cowboys", logos := [] }
    stats := [ { name := "wins", abbreviation := none, type := none
                 value := 7, displayValue := some 7 }
             , { name := "losses", abbreviation := none, type := none
                 value := 10, displayValue := some 10 }
             , { name := "pointsAgainst", abbreviation := none, type := none
                 value := 425, displayValue := some 425 } ] }

/-- A standings document with one conference holding PHI and DAL. -/
def docTwo : StandingsDoc := { children := some [{ entries := some [entryPHI, entryDAL] }] }

/-- A standings document in which the same row occurs twice. -/
def dupDoc : StandingsDoc := { children := some [{ entries := some [entryPHI, entryPHI] }] }

/-- A `BasicTeam` with a 340-point season total over 17 games. -/
def bt340 : BasicTeam :=
  { id := "21", abbr := "PHI", fullName := "Philadelphia Eagles", logo := ""
    pointsAllowed := 340, gamesPlayed := 17 }

/-- A per-team statistics document with season totals 5950 total /
4250 pass / 1700 rush opponent yards and 40 sacks, 15 INTs, 10 forced
fumbles. -/
def docStats : TeamStatsDoc :=
  { opponent := some
      [ { name := "rushing", stats := [ { name := "totalYards", value := 5950 }
                                      , { name := "rushingYards", value := 1700 } ] }
      , { name := "passing", stats := [ { name := "netPassingYards", value := 4250 } ] } ]
    statsField := .obj (some
      [ { name := "defensive", stats := [ { name := "sacks", value := 40 } ] }
      , { name := "defensiveInterceptions", stats := [ { name := "interceptions", value := 15 } ] }
      , { name := "general", stats := [ { name := "fumblesForced", value := 10 } ] } ]) }

/-- A standings document with no `children` field: no teams. -/
def emptyDoc : StandingsDoc := { children := none }

/-! Helper lemmas about list minima and maxima, normalisation and
rounding. -/

@[simp] lemma minMax_min (l : List ℚ) : (minMax l).min = listMin l := rfl

@[simp] lemma minMax_max (l : List ℚ) : (minMax l).max = listMax l := rfl

lemma foldl_min_le_init : ∀ (xs : List ℚ) (a : ℚ), xs.foldl min a ≤ a
  | [], a => le_refl a
  | y :: ys, a => le_trans (foldl_min_le_init ys (min a y)) (min_le_left a y)

lemma init_le_foldl_max : ∀ (xs : List ℚ) (a : ℚ), a ≤ xs.foldl max a
  | [], a => le_refl a
  | y :: ys, a => le_trans (le_max_left a y) (init_le_foldl_max ys (max a y))

lemma foldl_min_le_mem (xs : List ℚ) : ∀ (a v : ℚ), v ∈ xs → xs.foldl min a ≤ v := by
  induction xs with
  | nil => intro a v hv; cases hv
  | cons y ys ih =>
    intro a v hv
    rcases List.mem_cons.mp hv with h | h
    · subst h; exact le_trans (foldl_min_le_init ys (min a v)) (min_le_right a v)
    · exact ih (min a y) v h

lemma mem_le_foldl_max (xs : List ℚ) : ∀ (a v : ℚ), v ∈ xs → v ≤ xs.foldl max a := by
  induction xs with
  | nil => intro a v hv; cases hv
  | cons y ys ih =>
    intro a v hv
    rcases List.mem_cons.mp hv with h | h
    · subst h; exact le_trans (le_max_right a v) (init_le_foldl_max ys (max a v))
    · exact ih (max a y) v h

lemma le_foldl_min (xs : List ℚ) : ∀ (a b : ℚ), a ≤ b → (∀ v ∈ xs, a ≤ v) →
    a ≤ xs.foldl min b := by
  induction xs with
  | nil => intro a b hab _; simpa using hab
  | cons y ys ih =>
    intro a b hab hall
    simp only [List.foldl_cons]
    exact ih a (min b y) (le_min hab (hall y (by simp)))
      (fun v hv => hall v (by simp [hv]))

lemma foldl_max_le (xs : List ℚ) : ∀ (a b : ℚ), b ≤ a → (∀ v ∈ xs, v ≤ a) →
    xs.foldl max b ≤ a := by
  induction xs with
  | nil => intro a b hab _; simpa using hab
  | cons y ys ih =>
    intro a b hab hall
    simp only [List.foldl_cons]
    exact ih a (max b y) (max_le hab (hall y (by simp)))
      (fun v hv => hall v (by simp [hv]))

lemma listMin_le_mem (l : List ℚ) (v : ℚ) (hv : v ∈ l) : listMin l ≤ v := by
  cases l with
  | nil => cases hv
  | cons x xs =>
    rcases List.mem_cons.mp hv with h | h
    · subst h; exact foldl_min_le_init xs v
    · exact foldl_min_le_mem xs x v h

lemma mem_le_listMax (l : List ℚ) (v : ℚ) (hv : v ∈ l) : v ≤ listMax l := by
  cases l with
  | nil => cases hv
  | cons x xs =>
    rcases List.mem_cons.mp hv with h | h
    · subst h; exact init_le_foldl_max xs v
    · exact mem_le_foldl_max xs x v h

lemma le_listMin (l : List ℚ) (a : ℚ) (hne : l ≠ []) (hall : ∀ v ∈ l, a ≤ v) :
    a ≤ listMin l := by
  cases l with
  | nil => exact absurd rfl hne
  | cons x xs =>
    exact le_foldl_min xs a x (hall x (by simp)) (fun v hv => hall v (by simp [hv]))

lemma listMax_le (l : List ℚ) (a : ℚ) (hne : l ≠ []) (hall : ∀ v ∈ l, v ≤ a) :
    listMax l ≤ a := by
  cases l with
  | nil => exact absurd rfl hne
  | cons x xs =>
    exact foldl_max_le xs a x (hall x (by simp)) (fun v hv => hall v (by simp [hv]))

lemma listMin_eq (l : List ℚ) (v : ℚ) (hv : v ∈ l) (hall : ∀ x ∈ l, v ≤ x) :
    listMin l = v :=
  le_antisymm (listMin_le_mem l v hv) (le_listMin l v (List.ne_nil_of_mem hv) hall)

lemma listMax_eq (l : List ℚ) (v : ℚ) (hv : v ∈ l) (hall : ∀ x ∈ l, x ≤ v) :
    listMax l = v :=
  le_antisymm (listMax_le l v (List.ne_nil_of_mem hv) hall) (mem_le_listMax l v hv)

lemma norm_bounds (l : List ℚ) (v : ℚ) (hv : v ∈ l) :
    0 ≤ norm v (minMax l) ∧ norm v (minMax l) ≤ 1 := by
  have h1 : listMin l ≤ v := listMin_le_mem l v hv
  have h2 : v ≤ listMax l := mem_le_listMax l v hv
  unfold norm
  rw [minMax_min, minMax_max]
  by_cases h : listMax l = listMin l
  · rw [if_pos h]; norm_num
  · rw [if_neg h]
    have hlt : listMin l < listMax l := lt_of_le_of_ne (le_trans h1 h2) (Ne.symm h)
    constructor
    · exact div_nonneg (by linarith) (by linarith)
    · rw [div_le_one (by linarith)]; linarith

lemma minMax_const (l : List ℚ) (c : ℚ) (h : ∀ x ∈ l, x = c) :
    (minMax l).max = (minMax l).min := by
  rw [minMax_min, minMax_max]
  cases l with
  | nil => rfl
  | cons x xs =>
    have hx : ∀ y ∈ x :: xs, x ≤ y := fun y hy => by
      rw [h y hy, h x (by simp)]
    have hx' : ∀ y ∈ x :: xs, y ≤ x := fun y hy => by
      rw [h y hy, h x (by simp)]
    rw [listMin_eq (x :: xs) x (by simp) hx, listMax_eq (x :: xs) x (by simp) hx']

lemma norm_of_const (l : List ℚ) (c v : ℚ) (h : ∀ x ∈ l, x = c) :
    norm v (minMax l) = 1/2 := by
  unfold norm
  rw [if_pos (minMax_const l c h)]

lemma norm_eq_zero_at_min (l : List ℚ) (v : ℚ) (hv : v ∈ l)
    (hall : ∀ x ∈ l, v ≤ x) (hex : ∃ x ∈ l, x ≠ v) : norm v (minMax l) = 0 := by
  have hmin : listMin l = v := listMin_eq l v hv hall
  obtain ⟨x, hx, hxv⟩ := hex
  have hlt : v < x := lt_of_le_of_ne (hall x hx) (Ne.symm hxv)
  have hne : (minMax l).max ≠ (minMax l).min := by
    rw [minMax_max, minMax_min, hmin]
    exact ne_of_gt (lt_of_lt_of_le hlt (mem_le_listMax l x hx))
  unfold norm
  rw [if_neg hne, minMax_min, hmin, sub_self, zero_div]

lemma norm_eq_one_at_max (l : List ℚ) (v : ℚ) (hv : v ∈ l)
    (hall : ∀ x ∈ l, x ≤ v) (hex : ∃ x ∈ l, x ≠ v) : norm v (minMax l) = 1 := by
  have hmax : listMax l = v := listMax_eq l v hv hall
  obtain ⟨x, hx, hxv⟩ := hex
  have hlt : x < v := lt_of_le_of_ne (hall x hx) hxv
  have hmin : listMin l < v := lt_of_le_of_lt (listMin_le_mem l x hx) hlt
  have hne : (minMax l).max ≠ (minMax l).min := by
    rw [minMax_max, minMax_min, hmax]
    exact ne_of_gt hmin
  unfold norm
  rw [if_neg hne, minMax_min, minMax_max, hmax]
  exact div_self (sub_ne_zero.mpr (ne_of_gt hmin))

lemma round1_nonneg {x : ℚ} (hx : 0 ≤ x) : 0 ≤ round1 x := by
  unfold round1
  apply div_nonneg _ (by norm_num)
  exact_mod_cast Int.floor_nonneg.mpr (by linarith)

lemma round1_le_hundred {x : ℚ} (hx : x ≤ 100) : round1 x ≤ 100 := by
  unfold round1
  rw [div_le_iff₀ (by norm_num : (0:ℚ) < 10)]
  have h1 : ⌊x * 10 + 1/2⌋ ≤ ⌊(2001:ℚ)/2⌋ := Int.floor_le_floor (by linarith)
  have h2 : ⌊(2001:ℚ)/2⌋ = 1000 := by norm_num
  have h3 : (⌊x * 10 + 1/2⌋ : ℚ) ≤ 1000 := by exact_mod_cast h1.trans (le_of_eq h2)
  linarith

lemma round1_hundred : round1 (100:ℚ) = 100 := by
  unfold round1; norm_num

lemma computeEfficiencyRating_eq (teams : List TeamDefenseStats) (h : teams ≠ []) :
    computeEfficiencyRating teams =
      teams.map (fun t => { t with dvoa := round1 (teamScore t
        (minMax (teams.map (·.pointsAllowed))) (minMax (teams.map (·.yardsAllowed)))
        (minMax (teams.map (·.sacks))) (minMax (teams.map (·.interceptions)))
        (minMax (teams.map (·.fumbles)))) }) := by
  unfold computeEfficiencyRating
  rw [if_neg (by simpa [List.length_eq_zero] using h)]

/-- C1: for every non-empty list of team records, every `dvoa` value
written by `computeEfficiencyRating` lies in the closed interval
[0, 100]. -/
theorem dvoa_bounded (teams : List TeamDefenseStats) (hne : teams ≠ []) :
    ∀ r ∈ computeEfficiencyRating teams, 0 ≤ r.dvoa ∧ r.dvoa ≤ 100 := by
  intro r hr
  rw [computeEfficiencyRating_eq teams hne] at hr
  obtain ⟨t, ht, rfl⟩ := List.mem_map.mp hr
  have hp := norm_bounds (teams.map (·.pointsAllowed)) t.pointsAllowed
    (List.mem_map_of_mem _ ht)
  have hy := norm_bounds (teams.map (·.yardsAllowed)) t.yardsAllowed
    (List.mem_map_of_mem _ ht)
  have hs := norm_bounds (teams.map (·.sacks)) t.sacks (List.mem_map_of_mem _ ht)
  have hi := norm_bounds (teams.map (·.interceptions)) t.interceptions
    (List.mem_map_of_mem _ ht)
  have hf := norm_bounds (teams.map (·.fumbles)) t.fumbles (List.mem_map_of_mem _ ht)
  refine ⟨round1_nonneg ?_, round1_le_hundred ?_⟩
  · unfold teamScore
    linarith [hp.1, hp.2, hy.1, hy.2, hs.1, hs.2, hi.1, hi.2, hf.1, hf.2]
  · unfold teamScore
    linarith [hp.1, hp.2, hy.1, hy.2, hs.1, hs.2, hi.1, hi.2, hf.1, hf.2]

/-- Witness for C1 at the singleton set `[T0]`. -/
theorem dvoa_bounded_witness :
    0 ≤ ((computeEfficiencyRating [T0]).getD 0 T0).dvoa ∧
    ((computeEfficiencyRating [T0]).getD 0 T0).dvoa ≤ 100 :=
  dvoa_bounded [T0] (by simp) _ (by
    rw [computeEfficiencyRating_eq [T0] (by simp)]
    simp)

/-- C10: `computeEfficiencyRating` writes only `dvoa`: the list length
and order are unchanged and every field other than `dvoa` of every
record is unchanged. -/
theorem scorer_writes_only_dvoa (teams : List TeamDefenseStats) :
    (computeEfficiencyRating teams).length = teams.length ∧
    (computeEfficiencyRating teams).map frameFields = teams.map frameFields := by
  by_cases h : teams = []
  · subst h; exact ⟨rfl, rfl⟩
  · rw [computeEfficiencyRating_eq teams h]
    refine ⟨List.length_map _ _, ?_⟩
    rw [List.map_map]
    exact List.map_congr_left (fun t ht => rfl)

lemma norm_of_const_metric (teams : List TeamDefenseStats)
    (f : TeamDefenseStats → ℚ) (c : ℚ) (hc : ∀ t ∈ teams, f t = c)
    (t : TeamDefenseStats) : NFL.norm (f t) (minMax (teams.map f)) = 1/2 := by
  apply norm_of_const _ c
  intro x hx
  obtain ⟨u, hu, rfl⟩ := List.mem_map.mp hx
  exact hc u hu

/-- C2: whenever one of the five weighted metrics is constant across the
team set (single-team case included), its min-max normalisation is
exactly 1/2 for every team, so that metric's contribution to every
team's score is exactly half its weight. -/
theorem tied_metric_half_weight :
    (∀ (teams : List TeamDefenseStats) (c : ℚ),
      (∀ t ∈ teams, t.pointsAllowed = c) → ∀ t ∈ teams,
        NFL.norm t.pointsAllowed (minMax (teams.map (·.pointsAllowed))) = 1/2 ∧
        (1 - NFL.norm t.pointsAllowed (minMax (teams.map (·.pointsAllowed)))) * 30 = 30/2) ∧
    (∀ (teams : List TeamDefenseStats) (c : ℚ),
      (∀ t ∈ teams, t.yardsAllowed = c) → ∀ t ∈ teams,
        NFL.norm t.yardsAllowed (minMax (teams.map (·.yardsAllowed))) = 1/2 ∧
        (1 - NFL.norm t.yardsAllowed (minMax (teams.map (·.yardsAllowed)))) * 25 = 25/2) ∧
    (∀ (teams : List TeamDefenseStats) (c : ℚ),
      (∀ t ∈ teams, t.sacks = c) → ∀ t ∈ teams,
        NFL.norm t.sacks (minMax (teams.map (·.sacks))) = 1/2 ∧
        NFL.norm t.sacks (minMax (teams.map (·.sacks))) * 20 = 20/2) ∧
    (∀ (teams : List TeamDefenseStats) (c : ℚ),
      (∀ t ∈ teams, t.interceptions = c) → ∀ t ∈ teams,
        NFL.norm t.interceptions (minMax (teams.map (·.interceptions))) = 1/2 ∧
        NFL.norm t.interceptions (minMax (teams.map (·.interceptions))) * 15 = 15/2) ∧
    (∀ (teams : List TeamDefenseStats) (c : ℚ),
      (∀ t ∈ teams, t.fumbles = c) → ∀ t ∈ teams,
        NFL.norm t.fumbles (minMax (teams.map (·.fumbles))) = 1/2 ∧
        NFL.norm t.fumbles (minMax (teams.map (·.fumbles))) * 10 = 10/2) := by
  refine ⟨?_, ?_, ?_, ?_, ?_⟩ <;>
    · intro teams c hc t ht
      have hn := norm_of_const_metric teams _ c hc t
      exact ⟨hn, by rw [hn]; norm_num⟩

/-- Witness for C2: points-allowed tied (trivially) on the singleton set
`[T0]`, and sacks tied likewise. -/
theorem tied_metric_half_weight_witness :
    (NFL.norm T0.pointsAllowed (minMax ([T0].map (·.pointsAllowed))) = 1/2 ∧
     (1 - NFL.norm T0.pointsAllowed (minMax ([T0].map (·.pointsAllowed)))) * 30 = 30/2) ∧
    (NFL.norm T0.sacks (minMax ([T0].map (·.sacks))) = 1/2 ∧
     NFL.norm T0.sacks (minMax ([T0].map (·.sacks))) * 20 = 20/2) :=
  ⟨tied_metric_half_weight.1 [T0] 20
      (by intro t ht; rw [List.mem_singleton.mp ht]; rfl) T0 (by simp),
   tied_metric_half_weight.2.2.1 [T0] 40
      (by intro t ht; rw [List.mem_singleton.mp ht]; rfl) T0 (by simp)⟩

/-- C3 counterexample: in the singleton set `[T0]` the team `T0`
trivially has the lowest `pointsAllowed` and `yardsAllowed` and the
highest `sacks`, `interceptions` and `fumbles`, yet its computed `dvoa`
is 50, not 100 (every metric is tied, so every normalisation is 1/2). -/
theorem best_team_not_always_hundred :
    (computeEfficiencyRating [T0]).map (·.dvoa) = [50] ∧ (50 : ℚ) ≠ 100 := by
  constructor
  · simp [computeEfficiencyRating, minMax, listMin, listMax, teamScore, NFL.norm,
      round1, T0]
    norm_num
  · norm_num

/-- C3 (amended): a team that has the lowest `pointsAllowed` and
`yardsAllowed` and the highest `sacks`, `interceptions` and `fumbles`
receives `dvoa = 100.0`, provided no one of the five metrics is constant
across the whole set (some team differs from it on each metric). -/
theorem best_team_dvoa_hundred (teams : List TeamDefenseStats) (i : ℕ)
    (T : TeamDefenseStats) (hT : teams[i]? = some T)
    (hpa : ∀ t ∈ teams, T.pointsAllowed ≤ t.pointsAllowed)
    (hya : ∀ t ∈ teams, T.yardsAllowed ≤ t.yardsAllowed)
    (hsk : ∀ t ∈ teams, t.sacks ≤ T.sacks)
    (hin : ∀ t ∈ teams, t.interceptions ≤ T.interceptions)
    (hfm : ∀ t ∈ teams, t.fumbles ≤ T.fumbles)
    (hpa' : ∃ t ∈ teams, t.pointsAllowed ≠ T.pointsAllowed)
    (hya' : ∃ t ∈ teams, t.yardsAllowed ≠ T.yardsAllowed)
    (hsk' : ∃ t ∈ teams, t.sacks ≠ T.sacks)
    (hin' : ∃ t ∈ teams, t.interceptions ≠ T.interceptions)
    (hfm' : ∃ t ∈ teams, t.fumbles ≠ T.fumbles) :
    ((computeEfficiencyRating teams).map (·.dvoa))[i]? = some 100 := by
  have hmem : T ∈ teams := by
    rcases List.getElem?_eq_some.mp hT with ⟨h, rfl⟩
    exact List.getElem_mem _
  have hne : teams ≠ [] := List.ne_nil_of_mem hmem
  have npa : NFL.norm T.pointsAllowed (minMax (teams.map (·.pointsAllowed))) = 0 := by
    apply norm_eq_zero_at_min _ _ (List.mem_map_of_mem _ hmem)
    · intro x hx; obtain ⟨u, hu, rfl⟩ := List.mem_map.mp hx; exact hpa u hu
    · obtain ⟨u, hu, hu'⟩ := hpa'
      exact ⟨u.pointsAllowed, List.mem_map_of_mem _ hu, hu'⟩
  have nya : NFL.norm T.yardsAllowed (minMax (teams.map (·.yardsAllowed))) = 0 := by
    apply norm_eq_zero_at_min _ _ (List.mem_map_of_mem _ hmem)
    · intro x hx; obtain ⟨u, hu, rfl⟩ := List.mem_map.mp hx; exact hya u hu
    · obtain ⟨u, hu, hu'⟩ := hya'
      exact ⟨u.yardsAllowed, List.mem_map_of_mem _ hu, hu'⟩
  have nsk : NFL.norm T.sacks (minMax (teams.map (·.sacks))) = 1 := by
    apply norm_eq_one_at_max _ _ (List.mem_map_of_mem _ hmem)
    · intro x hx; obtain ⟨u, hu, rfl⟩ := List.mem_map.mp hx; exact hsk u hu
    · obtain ⟨u, hu, hu'⟩ := hsk'
      exact ⟨u.sacks, List.mem_map_of_mem _ hu, hu'⟩
  have nin : NFL.norm T.interceptions (minMax (teams.map (·.interceptions))) = 1 := by
    apply norm_eq_one_at_max _ _ (List.mem_map_of_mem _ hmem)
    · intro x hx; obtain ⟨u, hu, rfl⟩ := List.mem_map.mp hx; exact hin u hu
    · obtain ⟨u, hu, hu'⟩ := hin'
      exact ⟨u.interceptions, List.mem_map_of_mem _ hu, hu'⟩
  have nfm : NFL.norm T.fumbles (minMax (teams.map (·.fumbles))) = 1 := by
    apply norm_eq_one_at_max _ _ (List.mem_map_of_mem _ hmem)
    · intro x hx; obtain ⟨u, hu, rfl⟩ := List.mem_map.mp hx; exact hfm u hu
    · obtain ⟨u, hu, hu'⟩ := hfm'
      exact ⟨u.fumbles, List.mem_map_of_mem _ hu, hu'⟩
  rw [computeEfficiencyRating_eq teams hne, List.map_map, List.getElem?_map, hT]
  simp only [Option.map_some', Function.comp_apply, Option.some.injEq]
  show round1 (teamScore T _ _ _ _ _) = 100
  unfold teamScore
  rw [npa, nya, nsk, nin, nfm]
  have h100 : (1 - (0:ℚ)) * 30 + (1 - (0:ℚ)) * 25 + (1:ℚ) * 20 + (1:ℚ) * 15 +
      (1:ℚ) * 10 = 100 := by norm_num
  rw [h100, round1_hundred]

/-- Witness for C3 (amended) at the two-team set `[tA, tB]`, where `tA`
is strictly best on all five metrics. -/
theorem best_team_dvoa_hundred_witness :
    ((computeEfficiencyRating [tA, tB]).map (·.dvoa))[0]? = some 100 := by
  apply best_team_dvoa_hundred [tA, tB] 0 tA rfl
  · intro t ht
    rcases List.mem_cons.mp ht with rfl | ht'
    · exact le_refl _
    · rw [List.mem_singleton.mp ht']; norm_num [tA, tB]
  · intro t ht
    rcases List.mem_cons.mp ht with rfl | ht'
    · exact le_refl _
    · rw [List.mem_singleton.mp ht']; norm_num [tA, tB]
  · intro t ht
    rcases List.mem_cons.mp ht with rfl | ht'
    · exact le_refl _
    · rw [List.mem_singleton.mp ht']; norm_num [tA, tB]
  · intro t ht
    rcases List.mem_cons.mp ht with rfl | ht'
    · exact le_refl _
    · rw [List.mem_singleton.mp ht']; norm_num [tA, tB]
  · intro t ht
    rcases List.mem_cons.mp ht with rfl | ht'
    · exact le_refl _
    · rw [List.mem_singleton.mp ht']; norm_num [tA, tB]
  · exact ⟨tB, by simp, by norm_num [tA, tB]⟩
  · exact ⟨tB, by simp, by norm_num [tA, tB]⟩
  · exact ⟨tB, by simp, by norm_num [tA, tB]⟩
  · exact ⟨tB, by simp, by norm_num [tA, tB]⟩
  · exact ⟨tB, by simp, by norm_num [tA, tB]⟩

lemma mergeTeamCats_yardsAllowed (cats : List StatCategory) (r : TeamDefenseStats) :
    (mergeTeamCats cats r).yardsAllowed = r.yardsAllowed := by
  unfold mergeTeamCats; split <;> rfl

lemma mergeTeamCats_passYards (cats : List StatCategory) (r : TeamDefenseStats) :
    (mergeTeamCats cats r).passYardsAllowed = r.passYardsAllowed := by
  unfold mergeTeamCats; split <;> rfl

lemma mergeTeamCats_rushYards (cats : List StatCategory) (r : TeamDefenseStats) :
    (mergeTeamCats cats r).rushYardsAllowed = r.rushYardsAllowed := by
  unfold mergeTeamCats; split <;> rfl

/-- C6: `getStat` tries the candidate keys in order against the stat
array, the first matching entry's resolved value wins, and the fallback
when no candidate matches is 0; on a stat array holding only
`pointsAgainst: 310`, the candidates
`["totalPointsAgainst", "pointsAgainst"]` resolve to 310. -/
theorem getStat_contract :
    (∀ (stats : List StatItem) (ns : List String),
      (∀ n ∈ ns, stats.find? (statMatches n) = none) → getStat stats ns = 0) ∧
    (∀ (stats : List StatItem) (ns1 : List String) (n : String)
        (ns2 : List String) (s : StatItem),
      (∀ m ∈ ns1, stats.find? (statMatches m) = none) →
      stats.find? (statMatches n) = some s →
      getStat stats (ns1 ++ n :: ns2) = resolveStat s) ∧
    (∀ s : StatItem, s.value ≠ 0 → resolveStat s = s.value) ∧
    getStat [statPA] ["totalPointsAgainst", "pointsAgainst"] = 310 := by
  refine ⟨?_, ?_, ?_, ?_⟩
  · intro stats ns h
    induction ns with
    | nil => rfl
    | cons n ns ih =>
      show (match stats.find? (statMatches n) with
            | some s => resolveStat s
            | none => getStat stats ns) = (0 : ℚ)
      rw [h n (by simp)]
      exact ih (fun m hm => h m (by simp [hm]))
  · intro stats ns1 n ns2 s h hfind
    induction ns1 with
    | nil =>
      show (match stats.find? (statMatches n) with
            | some s => resolveStat s
            | none => getStat stats ns2) = resolveStat s
      rw [hfind]
    | cons m ms ih =>
      show (match stats.find? (statMatches m) with
            | some s => resolveStat s
            | none => getStat stats (ms ++ n :: ns2)) = resolveStat s
      rw [h m (by simp)]
      exact ih (fun x hx => h x (by simp [hx]))
  · intro s h
    unfold resolveStat
    rw [if_pos h]
  · decide

/-- Witness for C6: no-match fallback and ordered fallback, both at the
one-entry stat array `[statPA]`. -/
theorem getStat_contract_witness :
    getStat [statPA] ["wins", "W"] = 0 ∧
    getStat [statPA] (["totalPointsAgainst"] ++ "pointsAgainst" :: []) =
      resolveStat statPA :=
  ⟨getStat_contract.1 [statPA] ["wins", "W"] (by decide),
   getStat_contract.2.1 [statPA] ["totalPointsAgainst"] "pointsAgainst" [] statPA
     (by decide) (by decide)⟩

/-- C7: per-game fields are `round1(seasonTotal / gamesPlayed)`: the
standings-derived points allowed and the three opponent yardage fields;
in particular a 340-point season total over 17 games yields exactly
20.0. -/
theorem per_game_rounding :
    (∀ team : BasicTeam, 0 < team.gamesPlayed →
      (baseRecord team).pointsAllowed =
        round1 (team.pointsAllowed / team.gamesPlayed)) ∧
    (∀ (team : BasicTeam) (doc : TeamStatsDoc), 0 < team.gamesPlayed →
      (doc.opponent.getD []).length ≠ 0 →
      (fetchTeamDetailedStats team (.ok doc)).yardsAllowed =
        round1 (findStat (doc.opponent.getD []) "rushing" "totalYards" /
          team.gamesPlayed) ∧
      (fetchTeamDetailedStats team (.ok doc)).passYardsAllowed =
        round1 (findStat (doc.opponent.getD []) "passing" "netPassingYards" /
          team.gamesPlayed) ∧
      (fetchTeamDetailedStats team (.ok doc)).rushYardsAllowed =
        round1 (findStat (doc.opponent.getD []) "rushing" "rushingYards" /
          team.gamesPlayed)) ∧
    (baseRecord bt340).pointsAllowed = 20 := by
  refine ⟨?_, ?_, ?_⟩
  · intro team h
    show (if team.gamesPlayed > 0
          then round1 (team.pointsAllowed / team.gamesPlayed) else 0) = _
    rw [if_pos h]
  · intro team doc hgp hopp
    unfold fetchTeamDetailedStats
    refine ⟨?_, ?_, ?_⟩
    · rw [mergeTeamCats_yardsAllowed]
      unfold mergeOpp
      rw [if_neg hopp]
      show (if team.gamesPlayed > 0 then _ else 0) = _
      rw [if_pos hgp]
    · rw [mergeTeamCats_passYards]
      unfold mergeOpp
      rw [if_neg hopp]
      show (if team.gamesPlayed > 0 then _ else 0) = _
      rw [if_pos hgp]
    · rw [mergeTeamCats_rushYards]
      unfold mergeOpp
      rw [if_neg hopp]
      show (if team.gamesPlayed > 0 then _ else 0) = _
      rw [if_pos hgp]
  · show (if bt340.gamesPlayed > 0
          then round1 (bt340.pointsAllowed / bt340.gamesPlayed) else 0) = 20
    norm_num [bt340, round1]

/-- Witness for C7 at `bt340` (340 points over 17 games) and the concrete
statistics document `docStats`. -/
theorem per_game_rounding_witness :
    (baseRecord bt340).pointsAllowed =
      round1 (bt340.pointsAllowed / bt340.gamesPlayed) ∧
    (fetchTeamDetailedStats bt340 (.ok docStats)).yardsAllowed =
      round1 (findStat (docStats.opponent.getD []) "rushing" "totalYards" /
        bt340.gamesPlayed) :=
  ⟨per_game_rounding.1 bt340 (by norm_num [bt340]),
   (per_game_rounding.2.1 bt340 docStats (by norm_num [bt340])
      (by simp [docStats])).1⟩

lemma map_ne_nil {α β : Type} (f : α → β) {l : List α} (h : l ≠ []) :
    l.map f ≠ [] := by
  cases l with
  | nil => exact absurd rfl h
  | cons x xs => simp

lemma GET_ok (doc : StandingsDoc) (detail : BasicTeam → FetchOutcome TeamStatsDoc)
    (now : String) (h : extractTeamsFromStandings doc ≠ []) :
    GET (.ok doc) detail now =
      { status := 200, error := none
        stats := computeEfficiencyRating ((extractTeamsFromStandings doc).map
          (fun t => fetchTeamDetailedStats t (detail t)))
        lastUpdated := some now, source := some "ESPN API - 2024 Season" } := by
  simp only [GET]
  rw [if_neg (by simpa [List.length_eq_zero] using h)]

lemma GET_empty (doc : StandingsDoc) (detail : BasicTeam → FetchOutcome TeamStatsDoc)
    (now : String) (h : extractTeamsFromStandings doc = []) :
    GET (.ok doc) detail now =
      { status := 500, error := some "No teams found in standings"
        stats := [], lastUpdated := none, source := none } := by
  simp only [GET]
  rw [if_pos (by simp [h])]

lemma fetch_fail (team : BasicTeam) (o : FetchOutcome TeamStatsDoc)
    (h : o = .httpError ∨ o = .thrown) :
    fetchTeamDetailedStats team o = baseRecord team := by
  rcases h with rfl | rfl <;> rfl

lemma mergeTeamCats_team (cats : List StatCategory) (r : TeamDefenseStats) :
    (mergeTeamCats cats r).team = r.team := by
  unfold mergeTeamCats; split <;> rfl

lemma mergeOpp_team (team : BasicTeam) (oppCats : List StatCategory)
    (r : TeamDefenseStats) : (mergeOpp team oppCats r).team = r.team := by
  unfold mergeOpp; split <;> rfl

lemma fetch_team_field (t : BasicTeam) (o : FetchOutcome TeamStatsDoc) :
    (fetchTeamDetailedStats t o).team = t.abbr := by
  cases o with
  | ok doc =>
    show (mergeTeamCats _ (mergeOpp _ _ _)).team = _
    rw [mergeTeamCats_team, mergeOpp_team]
    rfl
  | httpError => rfl
  | thrown => rfl

lemma extractEntry_PHI : extractEntry entryPHI =
    { id := "21", abbr := "PHI", fullName := "Philadelphia Eagles"
      logo := "phi.png", pointsAllowed := 340, gamesPlayed := 17 } := by
  have hw : getStat entryPHI.stats ["wins", "W"] = 10 := by decide
  have hl : getStat entryPHI.stats ["losses", "L"] = 7 := by decide
  have hpa : getStat entryPHI.stats ["pointsAllowed", "pointsAgainst", "PA"] = 340 := by
    decide
  unfold extractEntry
  rw [hw, hl, hpa]
  norm_num
  simp [entryPHI]

lemma stats_team_fields (doc : StandingsDoc)
    (detail : BasicTeam → FetchOutcome TeamStatsDoc) (now : String) :
    ((GET (.ok doc) detail now).stats.map (·.team)) =
      (extractTeamsFromStandings doc).map (·.abbr) := by
  by_cases h : extractTeamsFromStandings doc = []
  · rw [GET_empty doc detail now h, h]
    rfl
  · rw [GET_ok doc detail now h]
    show (computeEfficiencyRating _).map (·.team) = _
    rw [computeEfficiencyRating_eq _ (map_ne_nil _ h), List.map_map, List.map_map]
    exact List.map_congr_left (fun t ht => fetch_team_field t (detail t))

/-- C4: a failed or throwing per-team statistics fetch does not abort the
batch: the result still has one record per extracted team, and the failed
team's record keeps its identity fields and standings-derived per-game
points allowed while all enrichment fields are 0. -/
theorem batch_resilience (doc : StandingsDoc)
    (detail : BasicTeam → FetchOutcome TeamStatsDoc) (now : String)
    (hne : extractTeamsFromStandings doc ≠ []) :
    (GET (.ok doc) detail now).stats.length =
      (extractTeamsFromStandings doc).length ∧
    ∀ (i : ℕ) (T : BasicTeam), (extractTeamsFromStandings doc)[i]? = some T →
      (detail T = .httpError ∨ detail T = .thrown) →
      ((GET (.ok doc) detail now).stats[i]?).map frameFields =
        some (T.abbr, T.fullName, T.logo,
          if T.gamesPlayed > 0 then round1 (T.pointsAllowed / T.gamesPlayed) else 0,
          0, 0, 0, 0, 0, 0) := by
  rw [GET_ok doc detail now hne]
  constructor
  · show (computeEfficiencyRating _).length = _
    rw [computeEfficiencyRating_eq _ (map_ne_nil _ hne)]
    simp [List.length_map]
  · intro i T hT hfail
    show ((computeEfficiencyRating _)[i]?).map frameFields = _
    rw [computeEfficiencyRating_eq _ (map_ne_nil _ hne), List.getElem?_map,
      List.getElem?_map, hT]
    simp only [Option.map_some']
    rw [fetch_fail T (detail T) hfail]
    rfl

/-- Witness for C4: both fetches throw on the two-team document
`docTwo`; PHI's record keeps identity and 20.0 points allowed per game,
all other numeric fields 0. -/
theorem batch_resilience_witness :
    (GET (.ok docTwo) (fun _ => .thrown) "t").stats.length = 2 ∧
    (((GET (.ok docTwo) (fun _ => .thrown) "t").stats[0]?).map frameFields) =
      some ("PHI", "Philadelphia Eagles", "phi.png", 20, 0, 0, 0, 0, 0, 0) := by
  have hne : extractTeamsFromStandings docTwo ≠ [] := by
    simp [extractTeamsFromStandings, docTwo]
  have h := batch_resilience docTwo (fun _ => .thrown) "t" hne
  constructor
  · rw [h.1]
    rfl
  · have h2 := h.2 0 (extractEntry entryPHI) rfl (Or.inr rfl)
    rw [h2, extractEntry_PHI]
    norm_num [round1]

/-- C5: a non-success standings fetch, or an extracted team list that is
empty, is fatal: the route returns the `{ error, stats: [] }` envelope
with HTTP status 500, and the result does not depend on the per-team
fetch outcomes (no enrichment or scoring runs). -/
theorem primary_failure_fatal :
    (∀ (detail detail' : BasicTeam → FetchOutcome TeamStatsDoc) (now : String),
      GET .httpError detail now =
        { status := 500, error := some "Failed to fetch standings"
          stats := [], lastUpdated := none, source := none } ∧
      GET .httpError detail now = GET .httpError detail' now) ∧
    (∀ (doc : StandingsDoc)
        (detail detail' : BasicTeam → FetchOutcome TeamStatsDoc) (now : String),
      extractTeamsFromStandings doc = [] →
      GET (.ok doc) detail now =
        { status := 500, error := some "No teams found in standings"
          stats := [], lastUpdated := none, source := none } ∧
      GET (.ok doc) detail now = GET (.ok doc) detail' now) := by
  constructor
  · intro detail detail' now
    exact ⟨rfl, rfl⟩
  · intro doc detail detail' now h
    rw [GET_empty doc detail now h, GET_empty doc detail' now h]
    exact ⟨rfl, rfl⟩

/-- Witness for C5 at the document with no `children` (empty team list). -/
theorem primary_failure_fatal_witness :
    GET (.ok emptyDoc) (fun _ => .thrown) "t" =
      { status := 500, error := some "No teams found in standings"
        stats := [], lastUpdated := none, source := none } :=
  (primary_failure_fatal.2 emptyDoc (fun _ => .thrown) (fun _ => .httpError)
    "t" rfl).1

/-- C8 counterexample: a standings document in which the same row (team
code PHI) appears twice produces a result set whose `team` fields are
`["PHI", "PHI"]` — not unique. Nothing in the pipeline deduplicates. -/
theorem duplicate_team_codes :
    ((GET (.ok dupDoc) (fun _ => .httpError) "t").stats.map (·.team)) =
      ["PHI", "PHI"] ∧
    ¬ ((GET (.ok dupDoc) (fun _ => .httpError) "t").stats.map (·.team)).Nodup := by
  have h : ((GET (.ok dupDoc) (fun _ => .httpError) "t").stats.map (·.team)) =
      ["PHI", "PHI"] := by
    rw [stats_team_fields]
    rfl
  exact ⟨h, by rw [h]; decide⟩

/-- C8 (amended): the result set carries exactly one record per standings
entry, its `team` field being that entry's abbreviation (so no
placeholder records); hence the `team` fields are unique whenever the
standings entries' abbreviations are pairwise distinct. -/
theorem team_codes_match_entries (doc : StandingsDoc)
    (detail : BasicTeam → FetchOutcome TeamStatsDoc) (now : String) :
    ((GET (.ok doc) detail now).stats.map (·.team)) =
      (extractTeamsFromStandings doc).map (·.abbr) ∧
    (((extractTeamsFromStandings doc).map (·.abbr)).Nodup →
      ((GET (.ok doc) detail now).stats.map (·.team)).Nodup) :=
  ⟨stats_team_fields doc detail now,
   fun h => (stats_team_fields doc detail now).symm ▸ h⟩

/-- Witness for C8 (amended) on the two-team document `docTwo`. -/
theorem team_codes_match_entries_witness :
    ((GET (.ok docTwo) (fun _ => .thrown) "t").stats.map (·.team)) =
      (extractTeamsFromStandings docTwo).map (·.abbr) ∧
    ((GET (.ok docTwo) (fun _ => .thrown) "t").stats.map (·.team)).Nodup :=
  ⟨(team_codes_match_entries docTwo (fun _ => .thrown) "t").1,
   (team_codes_match_entries docTwo (fun _ => .thrown) "t").2 (by decide)⟩

/-- C9: the pipeline is deterministic given fixed upstream documents: two
runs differing only in the clock agree on every envelope field except
`lastUpdated`. -/
theorem pipeline_deterministic (s : StandingsOutcome)
    (detail : BasicTeam → FetchOutcome TeamStatsDoc) (n1 n2 : String) :
    (GET s detail n1).status = (GET s detail n2).status ∧
    (GET s detail n1).error = (GET s detail n2).error ∧
    (GET s detail n1).stats = (GET s detail n2).stats ∧
    (GET s detail n1).source = (GET s detail n2).source := by
  cases s with
  | httpError => exact ⟨rfl, rfl, rfl, rfl⟩
  | thrown => exact ⟨rfl, rfl, rfl, rfl⟩
  | ok doc =>
    by_cases h : extractTeamsFromStandings doc = []
    · rw [GET_empty doc detail n1 h, GET_empty doc detail n2 h]
      exact ⟨rfl, rfl, rfl, rfl⟩
    · rw [GET_ok doc detail n1 h, GET_ok doc detail n2 h]
      exact ⟨rfl, rfl, rfl, rfl⟩

end NFL
